import Mathlib

/-!
Shallow embedding of `route53-sidecar` (`src/main.go`).

The program publishes a weighted A record on startup, waits for Route 53 to
report the change `INSYNC`, and on shutdown deletes the record and drains the
TTL.  External effects are made explicit parameters:

* the stream of `GetChange` outcomes is a `List QueryResult`;
* context cancellation is an `Option Nat` counting how many poll sleeps
  complete before the context is cancelled (`none` = never cancelled, as for
  `context.Background()`);
* a `ChangeResourceRecordSets` submission error is a `Bool` flag;
* `log.Fatal` / out-of-bounds panics become explicit outcome constructors.
-/

/-- Outcome of one `GetChange` call inside `waitForSync` (main.go:180-182):
either the call returned an error, or it returned `ChangeInfo.Status`. -/
inductive QueryResult where
  | qerror : QueryResult
  | qstatus : String → QueryResult
deriving DecidableEq, Repr

/-- How a `waitForSync` invocation ends: the change reached `INSYNC`
(main.go:192-195), the context was cancelled during the poll sleep
(main.go:175-178), or the failure budget was exhausted and the process
terminated fatally (main.go:186-188). -/
inductive WaitOutcome where
  | completed : WaitOutcome
  | cancelled : WaitOutcome
  | fatal : WaitOutcome
deriving DecidableEq, Repr

/-- Advance the cancellation clock by one completed poll sleep. -/
def ctxTick : Option Nat → Option Nat
  | none => none
  | some n => some (n - 1)

/-- The `waitForSync` loop (main.go:172-199) with the failure counter made an
explicit argument.  Each iteration first sleeps (returning `cancelled` if the
context is already cancelled, i.e. the clock reached `some 0`), then consumes
the next query result: an error increments `failures` and is fatal once the
counter exceeds 3; a status ends the loop exactly when it is `"INSYNC"`.
`none` means the supplied result stream was exhausted with the loop still
polling. -/
def waitForSyncGo (cancelAt : Option Nat) (results : List QueryResult)
    (failures : Nat) : Option WaitOutcome :=
  if cancelAt = some 0 then
    some WaitOutcome.cancelled
  else
    match results with
    | [] => none
    | QueryResult.qerror :: rest =>
      if failures + 1 > 3 then
        some WaitOutcome.fatal
      else
        waitForSyncGo (ctxTick cancelAt) rest (failures + 1)
    | QueryResult.qstatus s :: rest =>
      if s = "INSYNC" then
        some WaitOutcome.completed
      else
        waitForSyncGo (ctxTick cancelAt) rest failures

/-- `waitForSync` entry point: the failure counter starts at zero on every
invocation (main.go:173). -/
def waitForSync (cancelAt : Option Nat) (results : List QueryResult) :
    Option WaitOutcome :=
  waitForSyncGo cancelAt results 0

/-- How a modelled call ends at process level: the function returned
normally, the process was terminated by `log.Fatal`, or the supplied query
stream ran out with the propagation wait still polling. -/
inductive ProcResult where
  | normal : ProcResult
  | fatalStop : ProcResult
  | stillPolling : ProcResult
deriving DecidableEq, Repr

/-- `setupDNS` (main.go:128-170): on a submission error it logs and returns
normally without calling `waitForSync` (main.go:162-166); otherwise it runs
the propagation wait, whose fatal case terminates the process.  The second
component records whether `waitForSync` was invoked. -/
def setupDNSRun (cancelAt : Option Nat) (submitErr : Bool)
    (results : List QueryResult) : ProcResult × Bool :=
  if submitErr then
    (ProcResult.normal, false)
  else
    match waitForSync cancelAt results with
    | none => (ProcResult.stillPolling, true)
    | some WaitOutcome.fatal => (ProcResult.fatalStop, true)
    | some _ => (ProcResult.normal, true)

/-- `tearDownDNS` (main.go:88-126): a submission error is fatal
(main.go:115-117); otherwise the propagation wait runs and, when it returns,
the function sleeps the full `dnsTTL` seconds before returning
(main.go:120-125).  The second component is the duration of that final TTL
sleep when it is reached. -/
def tearDownDNSRun (cancelAt : Option Nat) (submitErr : Bool)
    (results : List QueryResult) (dnsTTL : Nat) : ProcResult × Option Nat :=
  if submitErr then
    (ProcResult.fatalStop, none)
  else
    match waitForSync cancelAt results with
    | none => (ProcResult.stillPolling, none)
    | some WaitOutcome.fatal => (ProcResult.fatalStop, none)
    | some _ => (ProcResult.normal, some dnsTTL)

/-- A Route 53 resource record set as built by the program: name, record
values, TTL, record type, weight and set identifier (main.go:95-106 and
143-154). -/
structure ResourceRecordSet where
  name : String
  resourceRecords : List String
  ttl : Int
  rrType : String
  weight : Int
  setIdentifier : String
deriving DecidableEq, Repr

/-- The change action of a `types.Change`. -/
inductive ChangeAction where
  | upsert : ChangeAction
  | delete : ChangeAction
deriving DecidableEq, Repr

/-- One entry of a change batch. -/
structure Change where
  action : ChangeAction
  resourceRecordSet : ResourceRecordSet
deriving DecidableEq, Repr

/-- A change batch: the list of changes plus the optional comment. -/
structure ChangeBatch where
  changes : List Change
  comment : Option String
deriving DecidableEq, Repr

/-- The full `ChangeResourceRecordSetsInput`. -/
structure ChangeResourceRecordSetsInput where
  changeBatch : ChangeBatch
  hostedZoneId : String
deriving DecidableEq, Repr

/-- The Upsert request built by `setupDNS` (main.go:138-160). -/
def setupChangeInput (dns hostedZone : String) (dnsTTL : Int)
    (ipAddress : String) : ChangeResourceRecordSetsInput :=
  { changeBatch :=
      { changes :=
          [ { action := ChangeAction.upsert
            , resourceRecordSet :=
                { name := dns
                , resourceRecords := [ipAddress]
                , ttl := dnsTTL
                , rrType := "A"
                , weight := 100
                , setIdentifier := ipAddress } } ]
      , comment := some "route53-sidecar" }
  , hostedZoneId := hostedZone }

/-- The Delete request built by `tearDownDNS` (main.go:90-111). -/
def tearDownChangeInput (dns hostedZone : String) (dnsTTL : Int)
    (ipAddress : String) : ChangeResourceRecordSetsInput :=
  { changeBatch :=
      { changes :=
          [ { action := ChangeAction.delete
            , resourceRecordSet :=
                { name := dns
                , resourceRecords := [ipAddress]
                , ttl := dnsTTL
                , rrType := "A"
                , weight := 100
                , setIdentifier := ipAddress } } ]
      , comment := none }
  , hostedZoneId := hostedZone }

/-- One network attachment of the ECS task metadata document. -/
structure EcsNetwork where
  ipv4Addresses : List String
deriving DecidableEq, Repr

/-- The ECS task metadata document fields read by the program
(main.go:201-206). -/
structure EcsMetadata where
  desiredStatus : String
  networks : List EcsNetwork
deriving DecidableEq, Repr

/-- How the ECS branch of address resolution ends. -/
inductive EcsResolveOutcome where
  | resolved : String → EcsResolveOutcome
  | indexPanic : EcsResolveOutcome
  | fatalStopped : EcsResolveOutcome
deriving DecidableEq, Repr

/-- The `ipAddress == "ecs"` branch of `configureFromFlags` (main.go:64-74).
The source evaluates `metadata.Networks[0].IPv4Addresses[0]` unguarded and
only afterwards checks `DesiredStatus == "STOPPED"`; in this total embedding
the out-of-bounds index is the explicit `indexPanic` outcome, checked in the
same order as the source. -/
def configureFromFlagsEcs (m : EcsMetadata) : EcsResolveOutcome :=
  match m.networks.head? with
  | none => EcsResolveOutcome.indexPanic
  | some nw =>
    match nw.ipv4Addresses.head? with
    | none => EcsResolveOutcome.indexPanic
    | some ip =>
      if m.desiredStatus = "STOPPED" then
        EcsResolveOutcome.fatalStopped
      else
        EcsResolveOutcome.resolved ip

/-- The address available for subsequent DNS actions after ECS resolution:
`none` when the process terminated (panic or fatal) before any DNS action. -/
def ecsResolvedAddress (m : EcsMetadata) : Option String :=
  match configureFromFlagsEcs m with
  | EcsResolveOutcome.resolved ip => some ip
  | _ => none

/-- The kind of context a step of `main` runs under: the signal-cancellable
context from `signal.NotifyContext` (main.go:241), or the uncancellable
`context.Background()` (main.go:254). -/
inductive CtxKind where
  | signalCtx : CtxKind
  | backgroundCtx : CtxKind
deriving DecidableEq, Repr

/-- Whether a termination signal can cancel a context of this kind. -/
def cancellable : CtxKind → Bool
  | CtxKind.signalCtx => true
  | CtxKind.backgroundCtx => false

/-- Translate the signal arrival time (as a poll-sleep count, `none` = no
signal) into the cancellation clock seen through a context of the given
kind: the background context never observes a cancellation. -/
def ctxCancelAt : CtxKind → Option Nat → Option Nat
  | CtxKind.signalCtx, sig => sig
  | CtxKind.backgroundCtx, _ => none

/-- One step of `main`'s dispatch: a `setupDNS` call, the block on
`ctx.Done()`, or a `tearDownDNS` call, each tagged with the context it is
given. -/
inductive MainStep where
  | setup : CtxKind → MainStep
  | waitShutdown : MainStep
  | teardown : CtxKind → MainStep
deriving DecidableEq, Repr

/-- The mode dispatch of `main` (main.go:247-255): `register` runs
`setupDNS(ctx)` only; otherwise `unRegister` runs `tearDownDNS(ctx)` only;
otherwise the full lifecycle runs `setupDNS(ctx)`, blocks on `ctx.Done()`,
then runs `tearDownDNS(context.Background())`. -/
def mainSteps ( register unRegister : Bool) : List MainStep :=
  if register then
    [MainStep.setup CtxKind.signalCtx]
  else if unRegister then
    [MainStep.teardown CtxKind.signalCtx]
  else
    [MainStep.setup CtxKind.signalCtx, MainStep.waitShutdown,
      MainStep.teardown CtxKind.backgroundCtx]

/-- Coarse events of one full-lifecycle execution, in order. -/
inductive Ev where
  | setupEv : Ev
  | blockEv : Ev
  | teardownEv : Ev
deriving DecidableEq, Repr

/-- The full-lifecycle branch of `main` (main.go:251-255): `setupDNS` under
the signal context; if it returns, block on `ctx.Done()` and then run
`tearDownDNS` under the background context (which observes no
cancellation). -/
def fullLifecycle (pubCancel : Option Nat) (pubSubmitErr : Bool)
    (pubResults : List QueryResult) (tdSubmitErr : Bool)
    (tdResults : List QueryResult) (dnsTTL : Nat) : List Ev × ProcResult :=
  match (setupDNSRun pubCancel pubSubmitErr pubResults).1 with
  | ProcResult.fatalStop => ([Ev.setupEv], ProcResult.fatalStop)
  | ProcResult.stillPolling => ([Ev.setupEv], ProcResult.stillPolling)
  | ProcResult.normal =>
    ([Ev.setupEv, Ev.blockEv, Ev.teardownEv],
      (tearDownDNSRun (ctxCancelAt CtxKind.backgroundCtx none) tdSubmitErr
        tdResults dnsTTL).1)

/-- A query-result trace made of errors (`true`) and successful non-InSync
statuses (`false`), terminated by an `INSYNC` status.  Used to state the
failure-counter property over arbitrary interleavings. -/
def mixedTrace (mixed : List Bool) : List QueryResult :=
  mixed.map (fun b => if b then QueryResult.qerror
    else QueryResult.qstatus "PENDING") ++ [QueryResult.qstatus "INSYNC"]

theorem ctxTick_none : ctxTick none = none := rfl

theorem waitForSyncGo_nil (cancelAt : Option Nat) (f : Nat)
    (h : cancelAt ≠ some 0) : waitForSyncGo cancelAt [] f = none := by
  rw [waitForSyncGo, if_neg h]

theorem waitForSyncGo_qerror (cancelAt : Option Nat) (rest : List QueryResult)
    (f : Nat) (h : cancelAt ≠ some 0) :
    waitForSyncGo cancelAt (QueryResult.qerror :: rest) f =
      if f + 1 > 3 then some WaitOutcome.fatal
      else waitForSyncGo (ctxTick cancelAt) rest (f + 1) := by
  rw [waitForSyncGo, if_neg h]

theorem waitForSyncGo_qstatus (cancelAt : Option Nat) (rest : List QueryResult)
    (f : Nat) (s : String) (h : cancelAt ≠ some 0) :
    waitForSyncGo cancelAt (QueryResult.qstatus s :: rest) f =
      if s = "INSYNC" then some WaitOutcome.completed
      else waitForSyncGo (ctxTick cancelAt) rest f := by
  rw [waitForSyncGo, if_neg h]

theorem mixedTrace_cons (b : Bool) (rest : List Bool) :
    mixedTrace (b :: rest) =
      (if b then QueryResult.qerror else QueryResult.qstatus "PENDING")
        :: mixedTrace rest := rfl

theorem waitForSyncGo_mixedTrace (mixed : List Bool) (f : Nat) (hf : f ≤ 3) :
    waitForSyncGo none (mixedTrace mixed) f =
      some (if 3 < f + mixed.count true then WaitOutcome.fatal
        else WaitOutcome.completed) := by
  induction mixed generalizing f with
  | nil =>
    have h0 : ¬ 3 < f + List.count true [] := by
      simp only [List.count_nil]
      omega
    rw [if_neg h0]
    show waitForSyncGo none [QueryResult.qstatus "INSYNC"] f = _
    rw [waitForSyncGo_qstatus _ _ _ _ (by simp), if_pos rfl]
  | cons b rest ih =>
    rw [mixedTrace_cons]
    cases b with
    | true =>
      rw [if_pos rfl, waitForSyncGo_qerror _ _ _ (by simp), ctxTick_none]
      have hcc : List.count true (true :: rest) = List.count true rest + 1 :=
        List.count_cons_self _ _
      by_cases h3 : f + 1 > 3
      · rw [if_pos h3, if_pos (by rw [hcc]; omega)]
      · rw [if_neg h3, ih (f + 1) (by omega)]
        by_cases hc : 3 < f + 1 + List.count true rest
        · rw [if_pos hc, if_pos (by rw [hcc]; omega)]
        · rw [if_neg hc, if_neg (by rw [hcc]; omega)]
    | false =>
      rw [if_neg (by simp), waitForSyncGo_qstatus _ _ _ _ (by simp),
        if_neg (by decide), ctxTick_none, ih f hf]
      have hcc : List.count true (false :: rest) = List.count true rest :=
        List.count_cons_of_ne (by simp) _
      rw [hcc]

theorem waitForSyncGo_none_outcomes (rs : List QueryResult) (f : Nat) :
    waitForSyncGo none rs f = none ∨
    waitForSyncGo none rs f = some WaitOutcome.completed ∨
    waitForSyncGo none rs f = some WaitOutcome.fatal := by
  induction rs generalizing f with
  | nil => exact Or.inl (waitForSyncGo_nil none f (by simp))
  | cons r rest ih =>
    cases r with
    | qerror =>
      rw [waitForSyncGo_qerror _ _ _ (by simp), ctxTick_none]
      by_cases h3 : f + 1 > 3
      · rw [if_pos h3]
        exact Or.inr (Or.inr rfl)
      · rw [if_neg h3]
        exact ih (f + 1)
    | qstatus s =>
      rw [waitForSyncGo_qstatus _ _ _ _ (by simp), ctxTick_none]
      by_cases hs : s = "INSYNC"
      · rw [if_pos hs]
        exact Or.inr (Or.inl rfl)
      · rw [if_neg hs]
        exact ih f

/-- C1: within one `waitForSync` invocation the failure counter starts at
zero, is not reset by an intervening successful (non-InSync) query, and the
call escalates to a fatal stop exactly when the cumulative number of failed
queries exceeds 3; in particular exactly 3 query errors followed by `INSYNC`
complete successfully, while 4 are fatal. -/
theorem waitForSync_failure_threshold (mixed : List Bool) :
    waitForSync none (mixedTrace mixed) =
      waitForSyncGo none (mixedTrace mixed) 0 ∧
    waitForSync none (mixedTrace mixed) =
      some (if 3 < mixed.count true then WaitOutcome.fatal
        else WaitOutcome.completed) ∧
    waitForSync none (mixedTrace [true, true, true]) =
      some WaitOutcome.completed ∧
    waitForSync none (mixedTrace [true, true, true, true]) =
      some WaitOutcome.fatal := by
  refine ⟨rfl, ?_, by decide, by decide⟩
  rw [waitForSync, waitForSyncGo_mixedTrace mixed 0 (by omega), Nat.zero_add]

/-- C2 counterexample: retraction also occurs in retract-only mode
(`unregister`), where `tearDownDNS` — and hence its `waitForSync` — runs
under the signal context, which is cancellable, and a termination signal
does interrupt that teardown wait. -/
theorem retractOnly_teardown_uses_signal_ctx :
    mainSteps false true = [MainStep.teardown CtxKind.signalCtx] ∧
    cancellable CtxKind.signalCtx = true ∧
    waitForSync (ctxCancelAt CtxKind.signalCtx (some 0))
      [QueryResult.qstatus "PENDING"] = some WaitOutcome.cancelled := by
  exact ⟨rfl, rfl, by decide⟩

/-- C2 amended: in full lifecycle mode the teardown runs under the
uncancellable background context, through which no signal timing is ever
observed as a cancellation, so the teardown wait can never end in
cancellation (it only completes, stays polling, or goes fatal). -/
theorem fullLifecycle_teardown_uncancellable :
    mainSteps false false = [MainStep.setup CtxKind.signalCtx,
      MainStep.waitShutdown, MainStep.teardown CtxKind.backgroundCtx] ∧
    cancellable CtxKind.backgroundCtx = false ∧
    (∀ sig : Option Nat, ctxCancelAt CtxKind.backgroundCtx sig = none) ∧
    (∀ (rs : List QueryResult) (f : Nat),
      waitForSyncGo (ctxCancelAt CtxKind.backgroundCtx none) rs f = none ∨
      waitForSyncGo (ctxCancelAt CtxKind.backgroundCtx none) rs f =
        some WaitOutcome.completed ∨
      waitForSyncGo (ctxCancelAt CtxKind.backgroundCtx none) rs f =
        some WaitOutcome.fatal) :=
  ⟨rfl, rfl, fun _ => rfl, fun rs f => waitForSyncGo_none_outcomes rs f⟩

/-- C3: a submission error makes `setupDNS` return normally without ever
running the propagation wait, while the same error in `tearDownDNS` is an
immediate fatal process termination. -/
theorem submitError_publish_retract_asymmetry (cancelAt : Option Nat)
    (results : List QueryResult) (dnsTTL : Nat) :
    setupDNSRun cancelAt true results = (ProcResult.normal, false) ∧
    tearDownDNSRun cancelAt true results dnsTTL =
      (ProcResult.fatalStop, none) :=
  ⟨rfl, rfl⟩

/-- C7: each of the two change requests carries a single change whose record
set has type A, weight 100, and `setIdentifier` equal to the address, which
is also the sole record value; the Delete request of teardown carries
exactly the record set and hosted zone of the Upsert built from the same
configuration. -/
theorem changeRequest_invariants (dns hostedZone ipAddress : String)
    (dnsTTL : Int) :
    (setupChangeInput dns hostedZone dnsTTL ipAddress).changeBatch.changes.map
        (fun c => (c.action, c.resourceRecordSet.rrType,
          c.resourceRecordSet.weight, c.resourceRecordSet.setIdentifier,
          c.resourceRecordSet.resourceRecords)) =
      [(ChangeAction.upsert, "A", 100, ipAddress, [ipAddress])] ∧
    (tearDownChangeInput dns hostedZone dnsTTL ipAddress).changeBatch.changes.map
        (fun c => (c.action, c.resourceRecordSet.rrType,
          c.resourceRecordSet.weight, c.resourceRecordSet.setIdentifier,
          c.resourceRecordSet.resourceRecords)) =
      [(ChangeAction.delete, "A", 100, ipAddress, [ipAddress])] ∧
    (setupChangeInput dns hostedZone dnsTTL ipAddress).changeBatch.changes.map
        Change.resourceRecordSet =
      (tearDownChangeInput dns hostedZone dnsTTL ipAddress).changeBatch.changes.map
        Change.resourceRecordSet ∧
    (setupChangeInput dns hostedZone dnsTTL ipAddress).hostedZoneId =
      (tearDownChangeInput dns hostedZone dnsTTL ipAddress).hostedZoneId :=
  ⟨rfl, rfl, rfl, rfl⟩

/-- C10: with both `register` and `unRegister` set, `main` dispatches to
publish-only mode: `setupDNS` under the signal context is the only step, so
`tearDownDNS` is never invoked. -/
theorem register_takes_precedence :
    mainSteps true true = [MainStep.setup CtxKind.signalCtx] ∧
    (mainSteps true true).all
      (fun s => match s with
        | MainStep.teardown _ => false
        | _ => true) = true :=
  ⟨rfl, rfl⟩

/-- C4: for every ECS metadata document whose `DesiredStatus` is "STOPPED",
resolution never yields an address for subsequent DNS use — the process
terminates beforehand, by the controlled fatal stop or, when the document
has no first address, by the index panic. -/
theorem ecs_stopped_never_publishes (m : EcsMetadata)
    (h : m.desiredStatus = "STOPPED") :
    ecsResolvedAddress m = none ∧
    (configureFromFlagsEcs m = EcsResolveOutcome.fatalStopped ∨
      configureFromFlagsEcs m = EcsResolveOutcome.indexPanic) := by
  have hc : configureFromFlagsEcs m = EcsResolveOutcome.fatalStopped ∨
      configureFromFlagsEcs m = EcsResolveOutcome.indexPanic := by
    cases hn : m.networks.head? with
    | none => exact Or.inr (by simp [configureFromFlagsEcs, hn])
    | some nw =>
      cases ha : nw.ipv4Addresses.head? with
      | none => exact Or.inr (by simp [configureFromFlagsEcs, hn, ha])
      | some ip => exact Or.inl (by simp [configureFromFlagsEcs, hn, ha, h])
  refine ⟨?_, hc⟩
  unfold ecsResolvedAddress
  rcases hc with h1 | h1 <;> rw [h1]

theorem ecs_stopped_never_publishes_witness :
    ((⟨"STOPPED", [⟨["10.0.0.5"]⟩]⟩ : EcsMetadata).desiredStatus
      = "STOPPED") ∧
    (ecsResolvedAddress (⟨"STOPPED", [⟨["10.0.0.5"]⟩]⟩ : EcsMetadata) = none ∧
      (configureFromFlagsEcs (⟨"STOPPED", [⟨["10.0.0.5"]⟩]⟩ : EcsMetadata) =
          EcsResolveOutcome.fatalStopped ∨
        configureFromFlagsEcs (⟨"STOPPED", [⟨["10.0.0.5"]⟩]⟩ : EcsMetadata) =
          EcsResolveOutcome.indexPanic)) :=
  ⟨rfl, ecs_stopped_never_publishes _ rfl⟩

/-- C9: the unguarded index of `Networks[0].IPv4Addresses[0]` is evaluated
before the `DesiredStatus` check, so every document with no first network or
no first address ends in the panic outcome — in particular the STOPPED
branch is unreachable for such documents, and in this total embedding the
index-error branch is a reachable explicit outcome. -/
theorem ecs_unguarded_index_panics (m : EcsMetadata)
    (h : m.networks.head?.bind (fun nw => nw.ipv4Addresses.head?) = none) :
    configureFromFlagsEcs m = EcsResolveOutcome.indexPanic := by
  cases hn : m.networks.head? with
  | none => simp [configureFromFlagsEcs, hn]
  | some nw =>
    rw [hn] at h
    cases ha : nw.ipv4Addresses.head? with
    | none => simp [configureFromFlagsEcs, hn, ha]
    | some ip =>
      rw [Option.some_bind, ha] at h
      cases h

theorem ecs_unguarded_index_panics_witness :
    ((⟨"STOPPED", []⟩ : EcsMetadata).networks.head?.bind
      (fun nw => nw.ipv4Addresses.head?) = none) ∧
    configureFromFlagsEcs (⟨"STOPPED", []⟩ : EcsMetadata) =
      EcsResolveOutcome.indexPanic :=
  ⟨rfl, ecs_unguarded_index_panics _ rfl⟩

/-- C6: whenever the teardown propagation wait completes, `tearDownDNS`
performs a final sleep of exactly `dnsTTL` seconds before returning. -/
theorem teardown_drains_ttl (cancelAt : Option Nat)
    (results : List QueryResult) (dnsTTL : Nat)
    (h : waitForSync cancelAt results = some WaitOutcome.completed) :
    tearDownDNSRun cancelAt false results dnsTTL =
      (ProcResult.normal, some dnsTTL) := by
  unfold tearDownDNSRun
  rw [if_neg (by simp), h]

theorem teardown_drains_ttl_witness :
    waitForSync none [QueryResult.qstatus "INSYNC"] =
      some WaitOutcome.completed ∧
    tearDownDNSRun none false [QueryResult.qstatus "INSYNC"] 10 =
      (ProcResult.normal, some 10) :=
  ⟨by decide,
    teardown_drains_ttl none [QueryResult.qstatus "INSYNC"] 10 (by decide)⟩

/-- C5: in full lifecycle mode, whenever `setupDNS` returns normally — which
it always does when its submission failed non-fatally — the execution is
exactly: setup, then the block on the shutdown trigger, then teardown. -/
theorem full_lifecycle_order (pubCancel : Option Nat) (pubErr : Bool)
    (pubResults : List QueryResult) (tdErr : Bool)
    (tdResults : List QueryResult) (dnsTTL : Nat)
    (h : (setupDNSRun pubCancel pubErr pubResults).1 = ProcResult.normal) :
    (fullLifecycle pubCancel pubErr pubResults tdErr tdResults dnsTTL).1 =
      [Ev.setupEv, Ev.blockEv, Ev.teardownEv] ∧
    (fullLifecycle pubCancel true pubResults tdErr tdResults dnsTTL).1 =
      [Ev.setupEv, Ev.blockEv, Ev.teardownEv] := by
  constructor
  · unfold fullLifecycle
    rw [h]
  · rfl

theorem full_lifecycle_order_witness :
    (setupDNSRun none true []).1 = ProcResult.normal ∧
    ((fullLifecycle none true [] false [QueryResult.qstatus "INSYNC"] 10).1 =
        [Ev.setupEv, Ev.blockEv, Ev.teardownEv] ∧
      (fullLifecycle none true [] false [QueryResult.qstatus "INSYNC"] 10).1 =
        [Ev.setupEv, Ev.blockEv, Ev.teardownEv]) :=
  ⟨rfl,
    full_lifecycle_order none true [] false [QueryResult.qstatus "INSYNC"] 10 rfl⟩

theorem waitForSyncGo_some_zero (rs : List QueryResult) (f : Nat) :
    waitForSyncGo (some 0) rs f = some WaitOutcome.cancelled := by
  cases rs with
  | nil => rw [waitForSyncGo, if_pos rfl]
  | cons r rest =>
    cases r with
    | qerror => rw [waitForSyncGo, if_pos rfl]
    | qstatus s => rw [waitForSyncGo, if_pos rfl]

theorem waitForSyncGo_cancel (rs : List QueryResult) (c f : Nat)
    (h1 : c ≤ rs.length) (h2 : waitForSyncGo none (rs.take c) f = none) :
    waitForSyncGo (some c) rs f = some WaitOutcome.cancelled := by
  induction rs generalizing c f with
  | nil =>
    have hc0 : c = 0 := Nat.le_zero.mp h1
    subst hc0
    exact waitForSyncGo_some_zero [] f
  | cons r rest ih =>
    cases c with
    | zero => exact waitForSyncGo_some_zero (r :: rest) f
    | succ n =>
      have h1n : n ≤ rest.length := by
        simp only [List.length_cons] at h1
        omega
      rw [List.take_succ_cons] at h2
      cases r with
      | qerror =>
        rw [waitForSyncGo_qerror _ _ _ (by simp), ctxTick_none] at h2
        rw [waitForSyncGo_qerror _ _ _ (by simp)]
        by_cases h3 : f + 1 > 3
        · rw [if_pos h3] at h2
          cases h2
        · rw [if_neg h3] at h2
          rw [if_neg h3]
          have ht : ctxTick (some (n + 1)) = some n := rfl
          rw [ht]
          exact ih n (f + 1) h1n h2
      | qstatus s =>
        rw [waitForSyncGo_qstatus _ _ _ _ (by simp), ctxTick_none] at h2
        rw [waitForSyncGo_qstatus _ _ _ _ (by simp)]
        by_cases hs : s = "INSYNC"
        · rw [if_pos hs] at h2
          cases h2
        · rw [if_neg hs] at h2
          rw [if_neg hs]
          have ht : ctxTick (some (n + 1)) = some n := rfl
          rw [ht]
          exact ih n f h1n h2

/-- C8: when the context is cancelled after `c` completed poll sleeps and the
uncancelled run over the first `c` query results is still pending (neither
completed nor fatal), the wait returns the cancellation outcome at the very
next poll point — an outcome distinct from the fatal error — and a cancelled
sleep returns immediately from any failure-counter value, so cancellation
never increments the counter. -/
theorem cancellation_during_pending (c : Nat) (rs : List QueryResult)
    (h1 : c ≤ rs.length) (h2 : waitForSync none (rs.take c) = none) :
    waitForSync (some c) rs = some WaitOutcome.cancelled ∧
    (∀ (f : Nat) (rs2 : List QueryResult),
      waitForSyncGo (some 0) rs2 f = some WaitOutcome.cancelled) :=
  ⟨waitForSyncGo_cancel rs c 0 h1 h2,
    fun f rs2 => waitForSyncGo_some_zero rs2 f⟩

theorem cancellation_during_pending_witness :
    (1 ≤ ([QueryResult.qstatus "PENDING",
        QueryResult.qstatus "INSYNC"] : List QueryResult).length) ∧
    waitForSync none (([QueryResult.qstatus "PENDING",
        QueryResult.qstatus "INSYNC"] : List QueryResult).take 1) = none ∧
    (waitForSync (some 1) [QueryResult.qstatus "PENDING",
        QueryResult.qstatus "INSYNC"] = some WaitOutcome.cancelled ∧
      (∀ (f : Nat) (rs2 : List QueryResult),
        waitForSyncGo (some 0) rs2 f = some WaitOutcome.cancelled)) :=
  ⟨by decide, by decide,
    cancellation_during_pending 1
      [QueryResult.qstatus "PENDING", QueryResult.qstatus "INSYNC"]
      (by decide) (by decide)⟩
